import Mathlib

/-!
Shallow embedding of `src/scraping/smart_session.py`.

The file defines `SmartSession`, a `requests.Session` subclass that
configures retry, backoff, timeout injection and a fixed User-Agent
header.  The pure configuration logic (class-level defaults, the
constructor's truthiness-based fallbacks, the nested
`TimeoutHTTPAdapter`, and `init_all`) is embedded directly from the
source.  The retry/backoff loop itself is executed by the external
`urllib3.util.Retry` class, which is not part of this repository; that
loop is modelled from the specification's RetryPolicy contracts and
state machine, with every such definition marked `Modelled from the
spec:` in its doc comment.

Python floats are embedded as rationals (ℚ); Python `None` as
`Option.none`; Python truthiness of `x or default` is embedded
explicitly (`0`, `0.0`, `[]` and `""` are falsy).
-/

/-! ### Class-level defaults (source lines 14-56) -/

/-- Source line 18: `NUM_RETRIES = 5`. -/
def NUM_RETRIES : Int := 5

/-- Source line 25: `BACKOFF_FACTOR = 0.3`, embedded as the rational 3/10. -/
def BACKOFF_FACTOR : ℚ := 3 / 10

/-- Source lines 32-38: `STATUS_FORCELIST = [429, 500, 502, 503, 504]`. -/
def STATUS_FORCELIST : List Int := [429, 500, 502, 503, 504]

/-- Source lines 45-53: `METHOD_WHITELIST`, deliberately including POST. -/
def METHOD_WHITELIST : List String :=
  ["HEAD", "GET", "PUT", "POST", "DELETE", "OPTIONS", "TRACE"]

/-- Source line 56: the fixed browser-identifying User-Agent string. -/
def USER_AGENT : String :=
  "Mozilla/5.0 (Windows NT 6.1; WOW64) AppleWebKit/537.36 (KHTML, like Gecko) Chrome/56.0.2924.76 Safari/537.36"

/-! ### Python `x or default` truthiness fallbacks (source lines 84-89) -/

/-- Python `x or d` for an optional integer argument: `None` and `0` are falsy. -/
def orDefaultInt (x : Option Int) (d : Int) : Int :=
  match x with
  | none => d
  | some v => if v = 0 then d else v

/-- Python `x or d` for an optional float argument: `None` and `0.0` are falsy. -/
def orDefaultRat (x : Option ℚ) (d : ℚ) : ℚ :=
  match x with
  | none => d
  | some v => if v = 0 then d else v

/-- Python `x or d` for an optional list argument: `None` and `[]` are falsy. -/
def orDefaultList {α : Type} (x : Option (List α)) (d : List α) : List α :=
  match x with
  | none => d
  | some v => if v.isEmpty then d else v

/-- Python `x or d` for an optional string argument: `None` and `""` are falsy. -/
def orDefaultStr (x : Option String) (d : String) : String :=
  match x with
  | none => d
  | some v => if v = "" then d else v

/-! ### The session's stored attributes after `__init__` (source lines 75-92) -/

/-- The attributes `SmartSession.__init__` stores on `self` (source lines 84-89). -/
structure SmartSessionState where
  num_retries : Int
  backoff_factor : ℚ
  status_forcelist : List Int
  method_whitelist : List String
  timeout : Option ℚ
  user_agent : String
deriving DecidableEq

/-- `SmartSession.__init__` (source lines 75-92): each of `num_retries`,
`backoff_factor`, `status_forcelist`, `method_whitelist` and `user_agent`
is run through Python `or` against the class-level default, while
`timeout` is stored as given (possibly `None`).  No validation is
performed and nothing is raised: the embedding is a total function. -/
def SmartSession.init (num_retries : Option Int) (backoff_factor : Option ℚ)
    (status_forcelist : Option (List Int)) (method_whitelist : Option (List String))
    (timeout : Option ℚ) (user_agent : Option String) : SmartSessionState :=
  { num_retries := orDefaultInt num_retries NUM_RETRIES,
    backoff_factor := orDefaultRat backoff_factor BACKOFF_FACTOR,
    status_forcelist := orDefaultList status_forcelist STATUS_FORCELIST,
    method_whitelist := orDefaultList method_whitelist METHOD_WHITELIST,
    timeout := timeout,
    user_agent := orDefaultStr user_agent USER_AGENT }

/-! ### The nested `TimeoutHTTPAdapter` (source lines 58-73) -/

/-- The state of a `TimeoutHTTPAdapter`: its `self.timeout` attribute,
`none` meaning Python `None` (no timeout). -/
structure TimeoutHTTPAdapter where
  timeout : Option ℚ
deriving DecidableEq

/-- Source line 60: the adapter-level class constant `TIMEOUT = 5` seconds. -/
def TimeoutHTTPAdapter.TIMEOUT : ℚ := 5

/-- `TimeoutHTTPAdapter.__init__` (source lines 62-67): `self.timeout`
starts as the class constant `TIMEOUT`; if the keyword argument
`timeout` is present in `kwargs` — even with value `None` — it
overwrites that default.  `timeoutKw = none` models the keyword being
absent; `timeoutKw = some t` models `timeout=t` being passed. -/
def TimeoutHTTPAdapter.init (timeoutKw : Option (Option ℚ)) : TimeoutHTTPAdapter :=
  match timeoutKw with
  | none => { timeout := some TimeoutHTTPAdapter.TIMEOUT }
  | some t => { timeout := t }

/-- `TimeoutHTTPAdapter.send` (source lines 69-73), projected onto the
timeout it forwards: if the per-call `timeout` keyword is `None`, the
adapter substitutes its own `self.timeout`; otherwise the explicit
per-call value is kept. -/
def TimeoutHTTPAdapter.send (a : TimeoutHTTPAdapter) (timeoutArg : Option ℚ) : Option ℚ :=
  match timeoutArg with
  | none => a.timeout
  | some t => some t

/-! ### `init_all` (source lines 97-111) -/

/-- The arguments `init_all` passes to `urllib3.util.Retry` (source lines 98-105). -/
structure RetryState where
  total : Int
  read : Int
  connect : Int
  backoff_factor : ℚ
  status_forcelist : List Int
  method_whitelist : List String
deriving DecidableEq

/-- A fully initialised session: stored attributes, the `Retry` object,
the mounted adapter, and the `User-Agent` header set on the session. -/
structure SmartSessionFull where
  state : SmartSessionState
  retry : RetryState
  adapter : TimeoutHTTPAdapter
  headerUserAgent : String
deriving DecidableEq

/-- `SmartSession.init_all` (source lines 97-111): builds the `Retry`
from the stored attributes, and constructs the adapter as
`TimeoutHTTPAdapter(timeout=self.timeout, max_retries=retry)` — note the
`timeout` keyword is ALWAYS passed, even when `self.timeout` is `None`,
so the adapter receives `some s.timeout`. The `User-Agent` header is set
from `self.user_agent`. -/
def SmartSession.initAll (s : SmartSessionState) : SmartSessionFull :=
  { state := s,
    retry := { total := s.num_retries, read := s.num_retries, connect := s.num_retries,
               backoff_factor := s.backoff_factor, status_forcelist := s.status_forcelist,
               method_whitelist := s.method_whitelist },
    adapter := TimeoutHTTPAdapter.init (some s.timeout),
    headerUserAgent := s.user_agent }

/-- Full construction: `SmartSession(...)` = `__init__` followed by `init_all`
(source line 95). -/
def SmartSession.make (nr : Option Int) (bf : Option ℚ) (sf : Option (List Int))
    (mw : Option (List String)) (tmo : Option ℚ) (ua : Option String) : SmartSessionFull :=
  SmartSession.initAll (SmartSession.init nr bf sf mw tmo ua)

/-- The timeout actually used for a request issued through the session:
`requests` forwards the per-call `timeout` keyword (`None` when the
caller gave none) to the mounted adapter's `send`, embedded above. -/
def effectiveTimeout (s : SmartSessionFull) (perCallTimeout : Option ℚ) : Option ℚ :=
  s.adapter.send perCallTimeout

/-! ### RetryPolicy — modelled from the spec

The retry loop is executed by `urllib3.util.Retry`, an external library
class that is not part of this repository; only its configuration (the
`RetryState` above) is repository code.  The following definitions are
therefore modelled from the specification's RetryPolicy contracts
(spec sections 4.1, 4.2 and 7). -/

/-- Modelled from the spec: the RetryConfiguration value object
(spec section 3).  The concrete retry loop lives in `urllib3.util.Retry`,
outside this repository. -/
structure RetryConfiguration where
  maxAttempts : Nat
  backoffFactor : ℚ
  retryableStatusCodes : List Int
  retryableMethods : List String
deriving DecidableEq

/-- Modelled from the spec: the mapping from the session's `Retry`
arguments to a RetryConfiguration — the spec reads `num_retries`
(passed as `Retry(total=...)`) as `maxAttempts`, the total number of
attempts including the first. -/
def sessionRetryConfig (s : SmartSessionFull) : RetryConfiguration :=
  { maxAttempts := s.retry.total.toNat,
    backoffFactor := s.retry.backoff_factor,
    retryableStatusCodes := s.retry.status_forcelist,
    retryableMethods := s.retry.method_whitelist }

/-- The outcome of one attempt: a network-level failure, or a received
response with a status code. -/
inductive Outcome where
  | networkFailure : Outcome
  | response : Int → Outcome
deriving DecidableEq

/-- Modelled from the spec: `shouldRetry(method, attemptIndex, outcome)`
(spec section 4.1), missing from the repository (it lives in
`urllib3.util.Retry`).  Returns false when attempts are exhausted
(`attemptIndex + 1 >= maxAttempts`), false when the method is not
retryable, true on a network-level failure, and otherwise true exactly
when the response status is in `retryableStatusCodes`. -/
def shouldRetry (cfg : RetryConfiguration) (method : String) (attemptIndex : Nat)
    (o : Outcome) : Bool :=
  if cfg.maxAttempts ≤ attemptIndex + 1 then false
  else if cfg.retryableMethods.contains method then
    match o with
    | Outcome.networkFailure => true
    | Outcome.response s => cfg.retryableStatusCodes.contains s
  else false

/-- Modelled from the spec: `backoffDuration(attemptIndex)` (spec
section 4.1), missing from the repository (it lives in
`urllib3.util.Retry`): `backoffFactor * 2^(attemptIndex-1)` for
`attemptIndex ≥ 1`, and `0` for `attemptIndex = 0`. -/
def backoffDuration (cfg : RetryConfiguration) (attemptIndex : Nat) : ℚ :=
  if attemptIndex = 0 then 0 else cfg.backoffFactor * 2 ^ (attemptIndex - 1)

/-- The terminal result of a logical request. -/
inductive RequestResult where
  | returned : Int → RequestResult
  | maxRetriesExceeded : RequestResult
  | networkError : RequestResult
deriving DecidableEq

/-- Whether an outcome is retryable-in-itself (ignoring exhaustion):
the method is retryable and the outcome is a network failure or a
retryable status. -/
def retryableOutcome (cfg : RetryConfiguration) (method : String) (o : Outcome) : Bool :=
  cfg.retryableMethods.contains method &&
    (match o with
     | Outcome.networkFailure => true
     | Outcome.response s => cfg.retryableStatusCodes.contains s)

/-- Modelled from the spec: the terminal classification (spec
sections 4.2 and 7), missing from the repository: a non-retryable
response is returned to the caller as a normal response; a retryable
response on which no attempt remains yields `MaxRetriesExceeded`; a
network-level failure is propagated as a network error. -/
def terminalResult (cfg : RetryConfiguration) (method : String) (o : Outcome) : RequestResult :=
  match o with
  | Outcome.networkFailure => RequestResult.networkError
  | Outcome.response s =>
      if retryableOutcome cfg method (Outcome.response s) then
        RequestResult.maxRetriesExceeded
      else RequestResult.returned s

/-- Modelled from the spec: the per-request retry state machine
(spec section 4.2), missing from the repository.  `attemptLoop cfg m
server i fuel` performs attempt `i` (its `server i` outcome), preceded
by a wait of `backoffDuration i`, and recurses while `shouldRetry`
permits.  Returns (number of attempts made, the waits before each
attempt, the terminal result).  The fuel is `maxAttempts` at the start,
which `shouldRetry`'s exhaustion guard never outruns. -/
def attemptLoop (cfg : RetryConfiguration) (method : String) (server : Nat → Outcome) :
    Nat → Nat → Nat × List ℚ × RequestResult
  | _, 0 => (0, [], RequestResult.maxRetriesExceeded)
  | i, fuel + 1 =>
    let o := server i
    let w := backoffDuration cfg i
    if shouldRetry cfg method i o then
      let r := attemptLoop cfg method server (i + 1) fuel
      (r.1 + 1, w :: r.2.1, r.2.2)
    else
      (1, [w], terminalResult cfg method o)

/-- Modelled from the spec: one logical request issued through the
session against a deterministic server (spec section 4.2's state
machine `INIT → ATTEMPTING → ... → {SUCCESS | EXHAUSTED}`). -/
def runRequest (cfg : RetryConfiguration) (method : String) (server : Nat → Outcome) :
    Nat × List ℚ × RequestResult :=
  attemptLoop cfg method server 0 cfg.maxAttempts

/-- A server that always answers 503 Service Unavailable. -/
def always503 : Nat → Outcome := fun _ => Outcome.response 503

/-- A server that always answers 404 Not Found. -/
def always404 : Nat → Outcome := fun _ => Outcome.response 404

/-- A server whose every attempt fails at the network level. -/
def alwaysNetworkFailure : Nat → Outcome := fun _ => Outcome.networkFailure

/-! ### Module-level side effect (source lines 10-11) -/

/-- The process-wide state the module touches: the global
`http.client.HTTPConnection.debuglevel`, together with the sessions
constructed so far in the process. -/
structure ProcessState where
  debuglevel : Int
  sessions : List SmartSessionFull

/-- The constructor arguments of one `SmartSession(...)` call. -/
structure ConstructorArgs where
  num_retries : Option Int
  backoff_factor : Option ℚ
  status_forcelist : Option (List Int)
  method_whitelist : Option (List String)
  timeout : Option ℚ
  user_agent : Option String

/-- The module's import-time side effect (source line 11):
`http.client.HTTPConnection.debuglevel = 1`, process-wide. -/
def moduleImport (p : ProcessState) : ProcessState :=
  { p with debuglevel := 1 }

/-- Constructing a session in a process: the only state the constructor
writes is the new session itself; no line of `__init__` or `init_all`
touches `debuglevel` (source lines 75-111 never mention it). -/
def constructSession (p : ProcessState) (a : ConstructorArgs) : ProcessState :=
  { p with sessions :=
      (SmartSession.make a.num_retries a.backoff_factor a.status_forcelist
        a.method_whitelist a.timeout a.user_agent) :: p.sessions }

/-! ### Helper lemmas -/

theorem constructSession_debuglevel (p : ProcessState) (a : ConstructorArgs) :
    (constructSession p a).debuglevel = p.debuglevel := rfl

theorem foldl_constructSession_debuglevel (l : List ConstructorArgs) (p : ProcessState) :
    (l.foldl constructSession p).debuglevel = p.debuglevel := by
  induction l generalizing p with
  | nil => rfl
  | cons a t ih => rw [List.foldl_cons, ih, constructSession_debuglevel]

theorem shouldRetry_false_of_method (cfg : RetryConfiguration) (method : String)
    (hm : cfg.retryableMethods.contains method = false) (i : Nat) (o : Outcome) :
    shouldRetry cfg method i o = false := by
  unfold shouldRetry
  split
  · rfl
  · rw [hm]
    simp

theorem backoffDuration_nonneg (cfg : RetryConfiguration) (hf : 0 ≤ cfg.backoffFactor)
    (i : Nat) : 0 ≤ backoffDuration cfg i := by
  unfold backoffDuration
  split
  · exact le_refl 0
  · exact mul_nonneg hf (by positivity)

theorem backoffDuration_zero (cfg : RetryConfiguration) : backoffDuration cfg 0 = 0 := by
  simp [backoffDuration]

theorem backoffDuration_succ (cfg : RetryConfiguration) (i : Nat) :
    backoffDuration cfg (i + 1) = cfg.backoffFactor * 2 ^ i := by
  simp [backoffDuration]

theorem NUM_RETRIES_ne_zero : NUM_RETRIES ≠ 0 := by decide

theorem BACKOFF_FACTOR_ne_zero : BACKOFF_FACTOR ≠ 0 := by
  norm_num [BACKOFF_FACTOR]

theorem STATUS_FORCELIST_ne_nil : STATUS_FORCELIST ≠ [] := by decide

theorem METHOD_WHITELIST_ne_nil : METHOD_WHITELIST ≠ [] := by decide

theorem USER_AGENT_ne_empty : USER_AGENT ≠ "" := by decide

theorem orDefaultInt_ne_zero (x : Option Int) (d : Int) (hd : d ≠ 0) :
    orDefaultInt x d ≠ 0 := by
  rcases x with _ | v
  · exact hd
  · by_cases hv : v = 0
    · simpa [orDefaultInt, hv] using hd
    · simp [orDefaultInt, hv]

theorem orDefaultRat_ne_zero (x : Option ℚ) (d : ℚ) (hd : d ≠ 0) :
    orDefaultRat x d ≠ 0 := by
  rcases x with _ | v
  · exact hd
  · by_cases hv : v = 0
    · simpa [orDefaultRat, hv] using hd
    · simp [orDefaultRat, hv]

theorem orDefaultList_ne_nil {α : Type} (x : Option (List α)) (d : List α) (hd : d ≠ []) :
    orDefaultList x d ≠ [] := by
  rcases x with _ | v
  · exact hd
  · rcases v with _ | ⟨a, t⟩
    · simpa [orDefaultList] using hd
    · simp [orDefaultList]

theorem orDefaultStr_ne_empty (x : Option String) (d : String) (hd : d ≠ "") :
    orDefaultStr x d ≠ "" := by
  rcases x with _ | v
  · exact hd
  · by_cases hv : v = ""
    · simpa [orDefaultStr, hv] using hd
    · simp [orDefaultStr, hv]

/-! ### Claims -/

/-- C1: for a session constructed with `num_retries = 3` (read as
`maxAttempts = 3`, total attempts including the first) against a server
that always returns 503, the logical request performs exactly 3
attempts, with waits `[0, backoffFactor*1, backoffFactor*2]` before
them, and terminates with `MaxRetriesExceeded`. -/
theorem C1_exhaustion_three_attempts :
    runRequest (sessionRetryConfig (SmartSession.make (some 3) none none none none none))
        "GET" always503 =
      (3, [0, BACKOFF_FACTOR * 1, BACKOFF_FACTOR * 2], RequestResult.maxRetriesExceeded) := by
  have hrun : runRequest (sessionRetryConfig (SmartSession.make (some 3) none none none none none))
      "GET" always503 =
      (3,
       [backoffDuration (sessionRetryConfig (SmartSession.make (some 3) none none none none none)) 0,
        backoffDuration (sessionRetryConfig (SmartSession.make (some 3) none none none none none)) 1,
        backoffDuration (sessionRetryConfig (SmartSession.make (some 3) none none none none none)) 2],
       RequestResult.maxRetriesExceeded) := rfl
  rw [hrun]
  norm_num [backoffDuration, sessionRetryConfig, SmartSession.make, SmartSession.initAll,
    SmartSession.init, orDefaultRat, BACKOFF_FACTOR]

/-- C2 counterexample: a session constructed without a timeout sends a
request that has no explicit per-call timeout with NO timeout at all
(`None`), not with the adapter-level 5-second default: `init_all`
always passes `timeout=self.timeout` (which is `None`) to the adapter,
overwriting the class constant `TIMEOUT = 5`. -/
theorem C2_counterexample :
    effectiveTimeout (SmartSession.make none none none none none none) none = none ∧
    effectiveTimeout (SmartSession.make none none none none none none) none ≠
      some TimeoutHTTPAdapter.TIMEOUT := by
  decide

/-- C2 amended: the adapter's 5-second class default exists but is
reachable only when the adapter is constructed without a `timeout`
keyword, which `init_all` never does; a session constructed without a
timeout therefore sends requests lacking an explicit per-call timeout
with timeout `None`, a session constructed with timeout `t` injects
`t`, and an explicit per-call timeout always overrides. -/
theorem C2_timeout_amended (t : ℚ) (tmo : Option ℚ) :
    (TimeoutHTTPAdapter.init none).timeout = some TimeoutHTTPAdapter.TIMEOUT ∧
    effectiveTimeout (SmartSession.make none none none none none none) none = none ∧
    effectiveTimeout (SmartSession.make none none none none (some t) none) none = some t ∧
    effectiveTimeout (SmartSession.make none none none none tmo none) (some t) = some t :=
  ⟨rfl, rfl, rfl, rfl⟩

/-- C3 counterexample: constructing a session with an empty
`status_forcelist` and an empty `method_whitelist` does NOT yield a
session that retries nothing: both empty lists are falsy in Python, so
`__init__`'s `or` fallbacks silently replace them with the class
defaults, and the resulting session does retry (e.g. a GET receiving
503 on attempt 0 is retried). -/
theorem C3_counterexample :
    (SmartSession.init none none (some []) (some []) none none).status_forcelist =
      STATUS_FORCELIST ∧
    (SmartSession.init none none (some []) (some []) none none).method_whitelist =
      METHOD_WHITELIST ∧
    shouldRetry (sessionRetryConfig (SmartSession.make none none (some []) (some []) none none))
      "GET" 0 (Outcome.response 503) = true := by
  decide

/-- C3 amended: constructing a session with an empty
`retryableStatusCodes` or an empty `retryableMethods` is
indistinguishable from leaving them unset — the empty lists are
silently replaced by the class defaults, so the degenerate
"retry nothing" configuration cannot be expressed through the
constructor. -/
theorem C3_empty_sets_amended (nr : Option Int) (bf : Option ℚ) (tmo : Option ℚ)
    (ua : Option String) :
    SmartSession.init nr bf (some []) (some []) tmo ua =
      SmartSession.init nr bf none none tmo ua := rfl

/-- C4 counterexample: constructing a session with the invalid
parameter `num_retries = 0` (`maxAttempts < 1`) does not fail at all —
no `ConfigurationError` exists in the code; the construction succeeds
and returns a state identical to default construction, the invalid
value having been silently replaced. -/
theorem C4_counterexample :
    SmartSession.init (some 0) none none none none none =
      SmartSession.init none none none none none none := rfl

/-- C4 amended: construction never validates its parameters and never
raises: a falsy invalid value (`num_retries = 0`) is silently replaced
by the class default 5, while a truthy invalid value
(`num_retries = -1`) is stored as-is without any error, at construction
time or later. -/
theorem C4_no_validation_amended :
    (SmartSession.init (some 0) none none none none none).num_retries = NUM_RETRIES ∧
    (SmartSession.init (some (-1)) none none none none none).num_retries = -1 := by
  decide

/-- C5: `backoffDuration 0 = 0`; for every `attemptIndex = i + 1 ≥ 1`,
`backoffDuration (i+1) = backoffFactor * 2^i`; and for a non-negative
backoff factor the duration is non-negative and monotonically
non-decreasing in the attempt index. -/
theorem C5_backoff_formula (cfg : RetryConfiguration) (i j : Nat)
    (hf : 0 ≤ cfg.backoffFactor) (hij : i ≤ j) :
    backoffDuration cfg 0 = 0 ∧
    backoffDuration cfg (i + 1) = cfg.backoffFactor * 2 ^ i ∧
    0 ≤ backoffDuration cfg i ∧
    backoffDuration cfg i ≤ backoffDuration cfg j := by
  refine ⟨backoffDuration_zero cfg, backoffDuration_succ cfg i,
    backoffDuration_nonneg cfg hf i, ?_⟩
  rcases i with _ | i
  · rw [backoffDuration_zero]
    exact backoffDuration_nonneg cfg hf j
  · rcases j with _ | j
    · omega
    · rw [backoffDuration_succ, backoffDuration_succ]
      exact mul_le_mul_of_nonneg_left (pow_le_pow_right₀ one_le_two (by omega)) hf

/-- C5 witness: the backoff properties at the default session's
configuration (factor 3/10) and attempt indices 1 ≤ 3. -/
theorem C5_backoff_formula_witness :
    backoffDuration (sessionRetryConfig (SmartSession.make none none none none none none)) 0 = 0 ∧
    backoffDuration (sessionRetryConfig (SmartSession.make none none none none none none)) (1 + 1) =
      (sessionRetryConfig (SmartSession.make none none none none none none)).backoffFactor * 2 ^ 1 ∧
    0 ≤ backoffDuration (sessionRetryConfig (SmartSession.make none none none none none none)) 1 ∧
    backoffDuration (sessionRetryConfig (SmartSession.make none none none none none none)) 1 ≤
      backoffDuration (sessionRetryConfig (SmartSession.make none none none none none none)) 3 :=
  C5_backoff_formula (sessionRetryConfig (SmartSession.make none none none none none none)) 1 3
    (by norm_num [sessionRetryConfig, SmartSession.make, SmartSession.initAll, SmartSession.init,
      orDefaultRat, BACKOFF_FACTOR]) (by decide)

/-- C6: a session constructed with no arguments uses exactly the
documented defaults: `num_retries = 5` (total attempts), backoff factor
0.3, retryable statuses {429, 500, 502, 503, 504}, retryable methods
{HEAD, GET, PUT, POST, DELETE, OPTIONS, TRACE} — POST included — and
the fixed browser-identifying User-Agent string set as the session
header. -/
theorem C6_defaults :
    (SmartSession.make none none none none none none).state.num_retries = 5 ∧
    (SmartSession.make none none none none none none).state.backoff_factor = 3 / 10 ∧
    (SmartSession.make none none none none none none).state.status_forcelist =
      [429, 500, 502, 503, 504] ∧
    (SmartSession.make none none none none none none).state.method_whitelist =
      ["HEAD", "GET", "PUT", "POST", "DELETE", "OPTIONS", "TRACE"] ∧
    "POST" ∈ (SmartSession.make none none none none none none).state.method_whitelist ∧
    (SmartSession.make none none none none none none).headerUserAgent =
      "Mozilla/5.0 (Windows NT 6.1; WOW64) AppleWebKit/537.36 (KHTML, like Gecko) Chrome/56.0.2924.76 Safari/537.36" := by
  refine ⟨rfl, rfl, rfl, rfl, ?_, rfl⟩
  simp [SmartSession.make, SmartSession.initAll, SmartSession.init, orDefaultList,
    METHOD_WHITELIST]

/-- C7: for every method not in the configured `retryableMethods`,
`shouldRetry` returns false for every attempt index and every outcome —
network failures and retryable statuses included — so such a request is
attempted exactly once. -/
theorem C7_nonretryable_method (cfg : RetryConfiguration) (method : String) (i : Nat)
    (o : Outcome) (server : Nat → Outcome)
    (hm : cfg.retryableMethods.contains method = false) (hA : 1 ≤ cfg.maxAttempts) :
    shouldRetry cfg method i o = false ∧ (runRequest cfg method server).1 = 1 := by
  refine ⟨shouldRetry_false_of_method cfg method hm i o, ?_⟩
  obtain ⟨k, hk⟩ : ∃ k, cfg.maxAttempts = k + 1 := ⟨cfg.maxAttempts - 1, by omega⟩
  rw [runRequest, hk]
  simp [attemptLoop, shouldRetry_false_of_method cfg method hm]

/-- C7 witness: a session whose method whitelist is just GET never
retries a POST, even against a server failing at the network level. -/
theorem C7_nonretryable_method_witness :
    shouldRetry (sessionRetryConfig (SmartSession.make none none none (some ["GET"]) none none))
        "POST" 0 Outcome.networkFailure = false ∧
    (runRequest (sessionRetryConfig (SmartSession.make none none none (some ["GET"]) none none))
        "POST" alwaysNetworkFailure).1 = 1 :=
  C7_nonretryable_method
    (sessionRetryConfig (SmartSession.make none none none (some ["GET"]) none none))
    "POST" 0 Outcome.networkFailure alwaysNetworkFailure (by decide) (by decide)

/-- C8: whenever the first attempt receives a response whose status
code is not in `retryableStatusCodes`, exactly one attempt is made
(with the zero wait before it) and that response is returned to the
caller as a normal response value, not raised as an error. -/
theorem C8_terminal_nonretryable (cfg : RetryConfiguration) (method : String)
    (server : Nat → Outcome) (s0 : Int) (hs : server 0 = Outcome.response s0)
    (hcode : cfg.retryableStatusCodes.contains s0 = false) (hA : 1 ≤ cfg.maxAttempts) :
    runRequest cfg method server = (1, [0], RequestResult.returned s0) := by
  obtain ⟨k, hk⟩ : ∃ k, cfg.maxAttempts = k + 1 := ⟨cfg.maxAttempts - 1, by omega⟩
  have hro : retryableOutcome cfg method (Outcome.response s0) = false := by
    show (cfg.retryableMethods.contains method && cfg.retryableStatusCodes.contains s0) = false
    rw [hcode, Bool.and_false]
  have hnr : shouldRetry cfg method 0 (server 0) = false := by
    rw [hs]
    unfold shouldRetry
    split
    · rfl
    · split
      · exact hcode
      · rfl
  have hterm : terminalResult cfg method (server 0) = RequestResult.returned s0 := by
    rw [hs]
    show (if retryableOutcome cfg method (Outcome.response s0) then
        RequestResult.maxRetriesExceeded else RequestResult.returned s0) =
      RequestResult.returned s0
    rw [hro]
    rfl
  rw [runRequest, hk]
  simp only [attemptLoop, hnr, Bool.false_eq_true, if_false]
  rw [backoffDuration_zero, hterm]

/-- C8 witness: the default session issuing a GET against a server that
always answers 404 makes exactly one attempt and receives the 404
response back as a value. -/
theorem C8_terminal_nonretryable_witness :
    runRequest (sessionRetryConfig (SmartSession.make none none none none none none))
        "GET" always404 = (1, [0], RequestResult.returned 404) :=
  C8_terminal_nonretryable
    (sessionRetryConfig (SmartSession.make none none none none none none))
    "GET" always404 404 rfl (by decide) (by decide)

/-- C9: every falsy constructor argument — `num_retries = 0`,
`backoff_factor = 0.0`, `status_forcelist = []`, `method_whitelist = []`,
`user_agent = ""` — is silently replaced by the class-level default, so
construction with all falsy values equals default construction, and no
constructed session can have a zero retry count, a zero backoff factor,
an empty status list, an empty method list, or an empty user agent. -/
theorem C9_falsy_arguments_replaced (nr : Option Int) (bf : Option ℚ)
    (sf : Option (List Int)) (mw : Option (List String)) (tmo : Option ℚ)
    (ua : Option String) :
    SmartSession.init (some 0) (some 0) (some []) (some []) tmo (some "") =
      SmartSession.init none none none none tmo none ∧
    (SmartSession.init nr bf sf mw tmo ua).num_retries ≠ 0 ∧
    (SmartSession.init nr bf sf mw tmo ua).backoff_factor ≠ 0 ∧
    (SmartSession.init nr bf sf mw tmo ua).status_forcelist ≠ [] ∧
    (SmartSession.init nr bf sf mw tmo ua).method_whitelist ≠ [] ∧
    (SmartSession.init nr bf sf mw tmo ua).user_agent ≠ "" := by
  exact ⟨rfl,
    orDefaultInt_ne_zero nr NUM_RETRIES NUM_RETRIES_ne_zero,
    orDefaultRat_ne_zero bf BACKOFF_FACTOR BACKOFF_FACTOR_ne_zero,
    orDefaultList_ne_nil sf STATUS_FORCELIST STATUS_FORCELIST_ne_nil,
    orDefaultList_ne_nil mw METHOD_WHITELIST METHOD_WHITELIST_ne_nil,
    orDefaultStr_ne_empty ua USER_AGENT USER_AGENT_ne_empty⟩

/-- C10: importing the module sets the process-wide
`http.client.HTTPConnection.debuglevel` to 1, whatever it was before,
and no operation of the module — in particular no sequence of session
constructions — ever changes it back. -/
theorem C10_debuglevel_side_effect (p : ProcessState) (l : List ConstructorArgs) :
    (moduleImport p).debuglevel = 1 ∧
    (l.foldl constructSession (moduleImport p)).debuglevel = 1 := by
  refine ⟨rfl, ?_⟩
  rw [foldl_constructSession_debuglevel]
  rfl
